import Mathlib

/-!
Shallow embedding of the Cpp-Server repository (src/server.cpp, src/utility.h).

The program is a minimal TCP listener: `main` parses an optional port
argument, then `run_server` opens a socket, sets SO_REUSEADDR, builds a
`sockaddr_in` with `make_server_sockaddr`, binds, reads the bound port back
with `get_port_number`, calls `listen` (return value ignored by the code),
and accepts connections forever, dispatching each to `handle_connection`.

OS calls are modelled by an oracle `OSModel` supplying each call's return
value; the infinite accept loop is modelled with explicit fuel (number of
loop iterations observed); console output is collected into a list of the
printed lines, the detached handler thread's single print being
sequentialized at its dispatch point; a thrown `Server_Error` becomes the
`RunOutcome.fatal` outcome carrying the exception's message, which `main`
catches, prints and turns into exit code -1.
-/

/- File level constants of src/server.cpp (exact strings). -/

def USAGE_MESSAGE_c : String := "Usage: ./server \x7bport number\x7d"

def USER_SELECTED_FOLLOWING_PORT_c : String := "> User selected to run the server on port: "

def USER_DID_NOT_SPECIFY_PORT_c : String := "> User did not specify a port, picking a port for the user"

def SERVER_LISTENING_ON_PORT_c : String := "> Server live and listening on port: "

def HANDLING_NEW_CONNECTION_c : String := "> Handling new connection: "

def ENCOUNTERED_AN_ERROR_OPENING_STREAM_SOCKET_c : String := "> Encountered a fatal error while opening stream socket"

def ENCOUNTERED_ERROR_SETTING_SOCKET_OPTIONS_c : String := "> Encountered a fatal error while setting socket options"

def ENCOUNTERED_ERROR_BINDING_STREAM_SOCKET_c : String := "> Encountered a fatal error while binding stream socket"

def ENCOUNTERED_ERROR_FETCHING_SOCKET_PORT_c : String := "> Encountered a fatal error while fetching socket port"

def ENCOUNTERED_ERROR_ACCEPTING_NEW_CONNECTION_c : String := "> Encountered a fatal error while attempting to accept a new connection"

def SERVER_SOCKET_QUEUE_SIZE_c : Int := 30

def MAX_MESSAGE_SIZE_IN_BYTES_c : Nat := 4096

/- POSIX constants used by the code. -/

def AF_INET : Nat := 2

def INADDR_ANY : Nat := 0

/-- The `sockaddr_in` struct: family, 32-bit address, 16-bit port in network
byte order, plus the padding bytes `sin_zero` (kept to show
`make_server_sockaddr` leaves everything it does not assign untouched). -/
structure sockaddr_in where
  sin_family : Nat
  sin_addr : Nat
  sin_port : Nat
  sin_zero : List Nat
deriving DecidableEq

/-- `htons` on a C `int` argument: the implicit `int → uint16_t` conversion
reduces the value modulo 2^16, then the bytes are swapped into network
(big-endian) order, modelling a little-endian host. -/
def htons (x : Int) : Nat :=
  let v := (x % 65536).toNat
  (v % 256) * 256 + v / 256

/-- `ntohs`: inverse byte swap on a 16-bit value. -/
def ntohs (x : Nat) : Nat :=
  let v := x % 65536
  (v % 256) * 256 + v / 256

/-- `atoi`: skip C whitespace, read an optional sign, then the longest
leading run of decimal digits (empty run yields 0). -/
def isCSpace (c : Char) : Bool :=
  c = ' ' || c = '\t' || c = '\n' || c = '\x0b' || c = '\x0c' || c = '\r'

def digitsVal : List Char → Nat → Nat
  | [], acc => acc
  | c :: cs, acc => if c.isDigit then digitsVal cs (acc * 10 + (c.toNat - 48)) else acc

def atoi (s : String) : Int :=
  match s.data.dropWhile isCSpace with
  | [] => ((digitsVal [] 0 : Nat) : Int)
  | c :: rest =>
    if c = '-' then -((digitsVal rest 0 : Nat) : Int)
    else if c = '+' then ((digitsVal rest 0 : Nat) : Int)
    else ((digitsVal (c :: rest) 0 : Nat) : Int)

/-- The characters remaining after `atoi`'s whitespace-and-sign prefix. -/
def dropSign : List Char → List Char
  | [] => []
  | c :: rest => if c = '-' then rest else if c = '+' then rest else c :: rest

/-- A port argument is non-numeric (malformed) when, after `atoi` skips
whitespace and an optional sign, no digit follows. -/
def nonNumericPortArg (s : String) : Bool :=
  match dropSign (s.data.dropWhile isCSpace) with
  | [] => true
  | c :: _ => !c.isDigit

/-- Oracle for the OS calls made by `run_server`: the return value of each
one-shot call, the `sockaddr_in` that `getsockname` reports on success, and
the file descriptor returned by the i-th `accept`. -/
structure OSModel where
  socket_ret : Int
  setsockopt_ret : Int
  bind_ret : Int
  getsockname_ret : Int
  getsockname_addr : sockaddr_in
  listen_ret : Int
  accept_ret : Nat → Int

/-- Outcome of a (fuel-bounded) run of `run_server`: a thrown `Server_Error`
carrying its message, still looping when the fuel ran out, or a normal
return (which the code has no path to). -/
inductive RunOutcome where
  | fatal (msg : String)
  | running
  | done
deriving DecidableEq

/-- src/server.cpp `make_server_sockaddr`: sets the family to `AF_INET`, the
address to `INADDR_ANY` and the port to `htons port`; the rest of the
struct is untouched. -/
def make_server_sockaddr (addr : sockaddr_in) (port : Int) : sockaddr_in :=
  { addr with sin_family := AF_INET, sin_addr := INADDR_ANY, sin_port := htons port }

/-- src/server.cpp `get_port_number`: throws
`ENCOUNTERED_ERROR_FETCHING_SOCKET_PORT_c` when `getsockname` returns -1,
otherwise returns `ntohs` of the port `getsockname` reported. -/
def get_port_number (os : OSModel) : Except String Nat :=
  if os.getsockname_ret = -1 then
    Except.error ENCOUNTERED_ERROR_FETCHING_SOCKET_PORT_c
  else
    Except.ok (ntohs os.getsockname_addr.sin_port)

/-- The line printed (by the spawned handler thread) for a connection. -/
def handling_line (connection_fd : Int) : String :=
  HANDLING_NEW_CONNECTION_c ++ toString connection_fd

/-- `memset(buf, c, n)`: set the first `n` bytes of `buf` to `c`. -/
def memset (buf : List Nat) (c : Nat) (n : Nat) : List Nat :=
  List.replicate (min n buf.length) c ++ buf.drop n

/-- src/server.cpp `handle_connection`: prints the handling line for its
file descriptor, then declares a `char client_message[4096]` buffer (its
indeterminate initial contents are the `client_message` argument) and
zeroes all of it with `memset`. It performs no other action — in
particular no read from and no write to the connection — and returns.
The result is the printed line and the buffer's final contents. -/
def handle_connection (connection_fd : Int) (client_message : List Nat) : String × List Nat :=
  (handling_line connection_fd, memset client_message 0 MAX_MESSAGE_SIZE_IN_BYTES_c)

/-- The `do { accept; spawn handler } while (true)` loop of `run_server`,
run for `fuel` iterations starting at the i-th accept: each iteration
accepts, throws on -1, otherwise dispatches a detached handler (whose
print is recorded here) and loops. -/
def accept_loop (os : OSModel) (i : Nat) : Nat → List String × RunOutcome
  | 0 => ([], RunOutcome.running)
  | Nat.succ fuel =>
    let connection_fd := os.accept_ret i
    if connection_fd = -1 then
      ([], RunOutcome.fatal ENCOUNTERED_ERROR_ACCEPTING_NEW_CONNECTION_c)
    else
      let rest := accept_loop os (i + 1) fuel
      (handling_line connection_fd :: rest.1, rest.2)

/-- src/server.cpp `run_server`: socket, setsockopt, make_server_sockaddr,
bind, get_port_number (each throwing its `Server_Error` on failure), print
the listening line, call `listen` (its return value `os.listen_ret` is not
examined, exactly as in the code), then the accept loop. Returns the lines
printed inside `run_server` and the outcome. -/
def run_server (os : OSModel) (port_number : Int) (socket_queue_size : Int)
    (addr0 : sockaddr_in) (fuel : Nat) : List String × RunOutcome :=
  let socket_fd := os.socket_ret
  if socket_fd = -1 then
    ([], RunOutcome.fatal ENCOUNTERED_AN_ERROR_OPENING_STREAM_SOCKET_c)
  else if os.setsockopt_ret = -1 then
    ([], RunOutcome.fatal ENCOUNTERED_ERROR_SETTING_SOCKET_OPTIONS_c)
  else
    let addr := make_server_sockaddr addr0 port_number
    if os.bind_ret = -1 then
      ([], RunOutcome.fatal ENCOUNTERED_ERROR_BINDING_STREAM_SOCKET_c)
    else
      match get_port_number os with
      | Except.error msg => ([], RunOutcome.fatal msg)
      | Except.ok p =>
        let line := SERVER_LISTENING_ON_PORT_c ++ toString p
        let rest := accept_loop os 0 fuel
        (line :: rest.1, rest.2)

/-- The port `main` passes to `run_server`: `atoi(argv[1])` when exactly one
argument was given, 0 otherwise. -/
def mainPort (args : List String) : Int :=
  match args with
  | [a] => atoi a
  | _ => 0

/-- The first line `main` prints (after the usage check): the selected-port
line with `to_string(port)`, or the did-not-specify line. -/
def mainFirstLine (args : List String) : String :=
  match args with
  | [a] => USER_SELECTED_FOLLOWING_PORT_c ++ toString (atoi a)
  | _ => USER_DID_NOT_SPECIFY_PORT_c

/-- src/server.cpp `main`, with `args` the command-line arguments after the
program name (so `argc = args.length + 1`): usage check, port extraction
and first print, then `run_server` under try/catch — a caught
`Server_Error` is printed and -1 returned. Result: all printed lines in
order, and `some code` when the process exits with `code` (`none` when the
fuel ran out while the server was still looping). -/
def server_main (args : List String) (os : OSModel) (addr0 : sockaddr_in) (fuel : Nat) :
    List String × Option Int :=
  if args.length + 1 > 2 then
    ([USAGE_MESSAGE_c], some (-1))
  else
    let r := run_server os (mainPort args) SERVER_SOCKET_QUEUE_SIZE_c addr0 fuel
    match r.2 with
    | RunOutcome.fatal msg => (mainFirstLine args :: (r.1 ++ [msg]), some (-1))
    | RunOutcome.running => (mainFirstLine args :: r.1, none)
    | RunOutcome.done => (mainFirstLine args :: r.1, some 0)

/- Concrete instances used by the witnesses. -/

def addr0c : sockaddr_in :=
  { sin_family := 0, sin_addr := 0, sin_port := 0, sin_zero := [0, 0, 0, 0, 0, 0, 0, 0] }

/-- An OS oracle on which every call succeeds; `getsockname` reports the
address bound for port 8080 and every `accept` returns descriptor 4. -/
def osOk : OSModel :=
  { socket_ret := 3, setsockopt_ret := 0, bind_ret := 0, getsockname_ret := 0,
    getsockname_addr := make_server_sockaddr addr0c 8080, listen_ret := 0,
    accept_ret := fun _ => 4 }

/-- An OS oracle whose `socket` call fails. -/
def osSocketFail : OSModel :=
  { osOk with socket_ret := -1 }

/-- An OS oracle on which everything succeeds except `listen`, which
returns -1. -/
def osListenFail : OSModel :=
  { osOk with listen_ret := -1 }

/- Helper lemmas shared by the claim theorems. -/

/-- Reading a stored port back: `ntohs` after `htons` recovers the requested
port reduced modulo 2^16. -/
theorem ntohs_htons (p : Int) : ntohs (htons p) = (p % 65536).toNat := by
  have h0 : 0 ≤ p % 65536 := Int.emod_nonneg p (by norm_num)
  have h1 : p % 65536 < 65536 := Int.emod_lt_of_pos p (by norm_num)
  simp only [ntohs, htons]
  set v := (p % 65536).toNat with hvdef
  have hv : v < 65536 := by omega
  have h2 : (v % 256) * 256 + v / 256 < 65536 := by omega
  rw [Nat.mod_eq_of_lt h2]
  omega

/-- The accept loop never produces a normal return. -/
theorem accept_loop_ne_done (os : OSModel) (fuel : Nat) :
    ∀ i, (accept_loop os i fuel).2 ≠ RunOutcome.done := by
  induction fuel with
  | zero => intro i; simp [accept_loop]
  | succ f ih =>
    intro i
    by_cases h : os.accept_ret i = -1
    · simp [accept_loop, h]
    · simpa [accept_loop, h] using ih (i + 1)

/-- When every accept within the fuel bound succeeds, the loop emits one
handling line per accepted connection and is still running. -/
theorem accept_loop_all_ok (os : OSModel) (fuel : Nat) :
    ∀ i, (∀ k, k < fuel → os.accept_ret (i + k) ≠ -1) →
      accept_loop os i fuel =
        ((List.range fuel).map (fun k => handling_line (os.accept_ret (i + k))),
         RunOutcome.running) := by
  induction fuel with
  | zero => intro i _; simp [accept_loop]
  | succ f ih =>
    intro i h
    have h0 : os.accept_ret i ≠ -1 := by simpa using h 0 (Nat.succ_pos f)
    have hrest := ih (i + 1) (fun k hk => by
      have hx := h (1 + k) (by omega)
      rw [show i + (1 + k) = i + 1 + k from by omega] at hx
      exact hx)
    have hfun : (fun k => handling_line (os.accept_ret (i + 1 + k)))
        = (fun k => handling_line (os.accept_ret (i + (k + 1)))) := by
      funext k
      rw [show i + 1 + k = i + (k + 1) from by omega]
    simp [accept_loop, h0, hrest, List.range_succ_eq_map, List.map_map, Function.comp, hfun]

/-- When the j-th accept is the first to fail (within the fuel bound), the
loop emits the handling lines of the first j connections and then throws
the accept error. -/
theorem accept_loop_first_fail (os : OSModel) (j : Nat) :
    ∀ i fuel, j < fuel → (∀ k, k < j → os.accept_ret (i + k) ≠ -1) →
      os.accept_ret (i + j) = -1 →
      accept_loop os i fuel =
        ((List.range j).map (fun k => handling_line (os.accept_ret (i + k))),
         RunOutcome.fatal ENCOUNTERED_ERROR_ACCEPTING_NEW_CONNECTION_c) := by
  induction j with
  | zero =>
    intro i fuel hf _ hacc
    cases fuel with
    | zero => omega
    | succ f =>
      have h0 : os.accept_ret i = -1 := by simpa using hacc
      simp [accept_loop, h0]
  | succ j ih =>
    intro i fuel hf hpre hacc
    cases fuel with
    | zero => omega
    | succ f =>
      have h0 : os.accept_ret i ≠ -1 := by simpa using hpre 0 (Nat.succ_pos j)
      have hrest := ih (i + 1) f (by omega)
        (fun k hk => by
          have hx := hpre (1 + k) (by omega)
          rw [show i + (1 + k) = i + 1 + k from by omega] at hx
          exact hx)
        (by
          rw [show i + 1 + j = i + (j + 1) from by omega]
          exact hacc)
      have hfun : (fun k => handling_line (os.accept_ret (i + 1 + k)))
          = (fun k => handling_line (os.accept_ret (i + (k + 1)))) := by
        funext k
        rw [show i + 1 + k = i + (k + 1) from by omega]
      simp [accept_loop, h0, hrest, List.range_succ_eq_map, List.map_map, Function.comp, hfun]

/-- `run_server` on the all-successful path: the listening line followed by
the accept loop's output. -/
theorem run_server_ok_eq (os : OSModel) (p q : Int) (addr0 : sockaddr_in) (fuel : Nat)
    (hs : os.socket_ret ≠ -1) (ho : os.setsockopt_ret ≠ -1)
    (hb : os.bind_ret ≠ -1) (hg : os.getsockname_ret ≠ -1) :
    run_server os p q addr0 fuel =
      ((SERVER_LISTENING_ON_PORT_c ++ toString (ntohs os.getsockname_addr.sin_port))
         :: (accept_loop os 0 fuel).1,
       (accept_loop os 0 fuel).2) := by
  simp [run_server, get_port_number, hs, ho, hb, hg]

/-- `server_main` when `run_server` throws: the first line, `run_server`'s
output, the caught error message, and exit code -1. -/
theorem server_main_catch (args : List String) (os : OSModel) (addr0 : sockaddr_in)
    (fuel : Nat) (hlen : args.length ≤ 1) (out : List String) (msg : String)
    (hrun : run_server os (mainPort args) SERVER_SOCKET_QUEUE_SIZE_c addr0 fuel
      = (out, RunOutcome.fatal msg)) :
    server_main args os addr0 fuel = (mainFirstLine args :: (out ++ [msg]), some (-1)) := by
  have hc : ¬(args.length + 1 > 2) := by omega
  simp [server_main, hc, hrun]

/-- Claim C1: for every requested port P in [1,65535], composing
`make_server_sockaddr` (which stores `htons P` in the endpoint) with
`get_port_number` (which returns `ntohs` of the port `getsockname` reports,
here the bound endpoint) is the identity on P: the resolved port after a
successful bind equals the requested port. -/
theorem c1_resolved_port_identity (addr0 : sockaddr_in) (os : OSModel) (P : Int)
    (h1 : 1 ≤ P) (h2 : P ≤ 65535)
    (hq : os.getsockname_ret ≠ -1)
    (hb : os.getsockname_addr = make_server_sockaddr addr0 P) :
    get_port_number os = Except.ok P.toNat ∧ ((P.toNat : Nat) : Int) = P := by
  constructor
  · unfold get_port_number
    rw [if_neg hq, hb]
    show Except.ok (ntohs (htons P)) = Except.ok P.toNat
    rw [ntohs_htons]
    congr 1
    omega
  · omega

/-- Claim C1 witness: P = 8080 on the all-success oracle. -/
theorem c1_resolved_port_identity_witness :
    get_port_number osOk = Except.ok (8080 : Int).toNat ∧ (((8080 : Int).toNat : Nat) : Int) = 8080 :=
  c1_resolved_port_identity addr0c osOk 8080 (by norm_num) (by norm_num) (by decide) rfl

/-- Claim C4: invoked with two or more arguments (argc > 2), `server_main`
prints only the usage message and returns -1; the result is the same for
every OS oracle and every fuel, so no socket operation is performed. -/
theorem c4_usage_error (args : List String) (os : OSModel) (addr0 : sockaddr_in)
    (fuel : Nat) (h : 2 ≤ args.length) :
    server_main args os addr0 fuel = ([USAGE_MESSAGE_c], some (-1)) := by
  have hc : args.length + 1 > 2 := by omega
  simp [server_main, hc]

/-- Claim C4 witness: two arguments. -/
theorem c4_usage_error_witness :
    server_main ["8080", "extra"] osOk addr0c 0 = ([USAGE_MESSAGE_c], some (-1)) :=
  c4_usage_error ["8080", "extra"] osOk addr0c 0 (by decide)

/-- Claim C8: `make_server_sockaddr` is a total pure function (it cannot
fail); for every requested port it sets the family to the IPv4 stream
family `AF_INET`, the address to `INADDR_ANY`, the port to the
network-byte-order encoding `htons port`, and modifies nothing else
(`sin_zero` is left exactly as it was). -/
theorem c8_make_server_sockaddr_spec (addr0 : sockaddr_in) (port : Int) :
    make_server_sockaddr addr0 port =
      { sin_family := AF_INET, sin_addr := INADDR_ANY, sin_port := htons port,
        sin_zero := addr0.sin_zero } ∧
    (make_server_sockaddr addr0 port).sin_zero = addr0.sin_zero :=
  ⟨rfl, rfl⟩

/-- Claim C9: for every connection handle, `handle_connection` works on a
buffer of exactly `MAX_MESSAGE_SIZE_IN_BYTES_c = 4096` bytes, zeroes every
byte of it, prints the handling line, and terminates; its result type shows
it performs no peer I/O. -/
theorem c9_handle_connection_spec (connection_fd : Int) (client_message : List Nat)
    (h : client_message.length = MAX_MESSAGE_SIZE_IN_BYTES_c) :
    handle_connection connection_fd client_message =
      (HANDLING_NEW_CONNECTION_c ++ toString connection_fd, List.replicate 4096 0) ∧
    (handle_connection connection_fd client_message).2.length = 4096 ∧
    MAX_MESSAGE_SIZE_IN_BYTES_c = 4096 := by
  have hdrop : client_message.drop MAX_MESSAGE_SIZE_IN_BYTES_c = [] := by
    rw [← h]
    exact List.drop_length client_message
  have hbuf : memset client_message 0 MAX_MESSAGE_SIZE_IN_BYTES_c = List.replicate 4096 0 := by
    unfold memset
    rw [h, min_self, hdrop, List.append_nil]
    rfl
  refine ⟨?_, ?_, rfl⟩
  · unfold handle_connection handling_line
    rw [hbuf]
  · show (memset client_message 0 MAX_MESSAGE_SIZE_IN_BYTES_c).length = 4096
    rw [hbuf, List.length_replicate]

/-- Claim C9 witness: descriptor 5 and an all-7 initial buffer. -/
theorem c9_handle_connection_spec_witness :
    handle_connection 5 (List.replicate 4096 7) =
      (HANDLING_NEW_CONNECTION_c ++ toString (5 : Int), List.replicate 4096 0) ∧
    (handle_connection 5 (List.replicate 4096 7)).2.length = 4096 ∧
    MAX_MESSAGE_SIZE_IN_BYTES_c = 4096 :=
  c9_handle_connection_spec 5 (List.replicate 4096 7) (by rw [List.length_replicate]; rfl)

/-- Claim C10, counterexample to the claim as stated: at p = -65536 the
claimed formula 65536 + (p mod 65536) (with C-truncated mod, the reading on
which the formula is right for other negative ports) gives 65536, but the
code encodes port 0. -/
theorem c10_counterexample :
    ((ntohs (make_server_sockaddr addr0c (-65536)).sin_port : Nat) : Int) = 0 ∧
    (65536 + Int.tmod (-65536) 65536 : Int) = 65536 ∧
    ((ntohs (make_server_sockaddr addr0c (-65536)).sin_port : Nat) : Int)
      ≠ 65536 + Int.tmod (-65536) 65536 := by
  refine ⟨by decide, by decide, by decide⟩

/-- C-style truncated remainder of a negative number, expressed through the
least nonnegative remainder of its negation. -/
theorem tmod_of_neg (p : Int) (hp : p < 0) : p.tmod 65536 = -((-p) % 65536) := by
  have h1 : (-p).tmod 65536 = (-p) % 65536 := Int.tmod_eq_emod (by omega) (by norm_num)
  have h2 : (-(-p)).tmod 65536 = -((-p).tmod 65536) := by
    rw [Int.tmod_def, Int.tmod_def, Int.neg_tdiv]
    ring
  rw [neg_neg] at h2
  rw [h2, h1]

/-- Claim C10 (amended): the port encoded by `make_server_sockaddr` is p
reduced modulo 2^16 (least nonnegative residue): 65536 behaves exactly like
0, and a negative p wraps to 65536 + (p tmod 65536) when p is not a
multiple of 65536, and to 0 when it is. -/
theorem c10_port_truncation (addr0 : sockaddr_in) (p : Int) :
    (make_server_sockaddr addr0 p).sin_port = htons (p % 65536) ∧
    ((ntohs (make_server_sockaddr addr0 p).sin_port : Nat) : Int) = p % 65536 ∧
    (make_server_sockaddr addr0 (65536 : Int)).sin_port = (make_server_sockaddr addr0 0).sin_port ∧
    (p < 0 → Int.tmod p 65536 ≠ 0 →
      ((ntohs (make_server_sockaddr addr0 p).sin_port : Nat) : Int) = 65536 + Int.tmod p 65536) ∧
    (p < 0 → Int.tmod p 65536 = 0 →
      ((ntohs (make_server_sockaddr addr0 p).sin_port : Nat) : Int) = 0) := by
  have hmain : ((ntohs (make_server_sockaddr addr0 p).sin_port : Nat) : Int) = p % 65536 := by
    show ((ntohs (htons p) : Nat) : Int) = p % 65536
    rw [ntohs_htons]
    have h0 : 0 ≤ p % 65536 := Int.emod_nonneg p (by norm_num)
    omega
  have h1 : (make_server_sockaddr addr0 p).sin_port = htons (p % 65536) := by
    show htons p = htons (p % 65536)
    have he : (p % 65536) % 65536 = p % 65536 := by omega
    simp only [htons, he]
  refine ⟨h1, hmain, rfl, ?_, ?_⟩
  · intro hneg hnz
    rw [hmain]
    have ht := tmod_of_neg p hneg
    omega
  · intro hneg hz
    rw [hmain]
    have ht := tmod_of_neg p hneg
    omega

/-- Claim C10 witness: p = -1 wraps to 65535 = 65536 + ((-1) tmod 65536). -/
theorem c10_port_truncation_witness :
    ((ntohs (make_server_sockaddr addr0c (-1)).sin_port : Nat) : Int) = 65536 + Int.tmod (-1) 65536 :=
  (c10_port_truncation addr0c (-1)).2.2.2.1 (by norm_num) (by decide)

/-- `server_main` when `run_server` is still looping at the fuel bound: the
first line plus `run_server`'s output, no exit. -/
theorem server_main_running (args : List String) (os : OSModel) (addr0 : sockaddr_in)
    (fuel : Nat) (hlen : args.length ≤ 1) (out : List String)
    (hrun : run_server os (mainPort args) SERVER_SOCKET_QUEUE_SIZE_c addr0 fuel
      = (out, RunOutcome.running)) :
    server_main args os addr0 fuel = (mainFirstLine args :: out, none) := by
  have hc : ¬(args.length + 1 > 2) := by omega
  simp [server_main, hc, hrun]

/-- Claim C2: every fatal failure during startup or the accept loop (socket
creation, setsockopt, bind, getsockname, accept returning -1) makes
`run_server` throw the Server_Error message of the first failing operation,
with no retry; `server_main` catches it, prints exactly that one message
after the lines already produced, and exits with code -1. -/
theorem c2_fatal_error_classification (os : OSModel) (p q : Int) (addr0 : sockaddr_in)
    (fuel : Nat) (args : List String) :
    (os.socket_ret = -1 →
      (run_server os p q addr0 fuel).2
        = RunOutcome.fatal ENCOUNTERED_AN_ERROR_OPENING_STREAM_SOCKET_c) ∧
    (os.socket_ret ≠ -1 → os.setsockopt_ret = -1 →
      (run_server os p q addr0 fuel).2
        = RunOutcome.fatal ENCOUNTERED_ERROR_SETTING_SOCKET_OPTIONS_c) ∧
    (os.socket_ret ≠ -1 → os.setsockopt_ret ≠ -1 → os.bind_ret = -1 →
      (run_server os p q addr0 fuel).2
        = RunOutcome.fatal ENCOUNTERED_ERROR_BINDING_STREAM_SOCKET_c) ∧
    (os.socket_ret ≠ -1 → os.setsockopt_ret ≠ -1 → os.bind_ret ≠ -1 →
      os.getsockname_ret = -1 →
      (run_server os p q addr0 fuel).2
        = RunOutcome.fatal ENCOUNTERED_ERROR_FETCHING_SOCKET_PORT_c) ∧
    (∀ j, os.socket_ret ≠ -1 → os.setsockopt_ret ≠ -1 → os.bind_ret ≠ -1 →
      os.getsockname_ret ≠ -1 →
      j < fuel → (∀ k, k < j → os.accept_ret k ≠ -1) → os.accept_ret j = -1 →
      (run_server os p q addr0 fuel).2
        = RunOutcome.fatal ENCOUNTERED_ERROR_ACCEPTING_NEW_CONNECTION_c) ∧
    (∀ out msg, args.length ≤ 1 →
      run_server os (mainPort args) SERVER_SOCKET_QUEUE_SIZE_c addr0 fuel
        = (out, RunOutcome.fatal msg) →
      server_main args os addr0 fuel = (mainFirstLine args :: (out ++ [msg]), some (-1))) := by
  refine ⟨?_, ?_, ?_, ?_, ?_, ?_⟩
  · intro hs
    simp [run_server, hs]
  · intro hs ho
    simp [run_server, hs, ho]
  · intro hs ho hb
    simp [run_server, hs, ho, hb]
  · intro hs ho hb hg
    simp [run_server, get_port_number, hs, ho, hb, hg]
  · intro j hs ho hb hg hj hpre hacc
    rw [run_server_ok_eq os p q addr0 fuel hs ho hb hg]
    rw [accept_loop_first_fail os j 0 fuel hj
      (fun k hk => by simpa using hpre k hk) (by simpa using hacc)]
  · intro out msg hlen hrun
    exact server_main_catch args os addr0 fuel hlen out msg hrun

/-- Claim C2 witness: the socket call is the first failure on
`osSocketFail` and the outcome is the socket-open error. -/
theorem c2_fatal_error_classification_witness :
    (run_server osSocketFail 8080 30 addr0c 1).2
      = RunOutcome.fatal ENCOUNTERED_AN_ERROR_OPENING_STREAM_SOCKET_c :=
  (c2_fatal_error_classification osSocketFail 8080 30 addr0c 1 []).1 rfl

/-- Claim C3: `server_main` does pass the design-default backlog
`SERVER_SOCKET_QUEUE_SIZE_c = 30` to `listen`, but `run_server` never
examines `listen`'s return value: with `listen` returning -1 the run still
prints the listening line, accepts a connection and keeps running, instead
of aborting with a fatal ListenError as the claim requires. -/
theorem c3_listen_return_ignored :
    SERVER_SOCKET_QUEUE_SIZE_c = 30 ∧
    osListenFail.listen_ret = -1 ∧
    run_server osListenFail 8080 SERVER_SOCKET_QUEUE_SIZE_c addr0c 1 =
      ([SERVER_LISTENING_ON_PORT_c ++ toString (8080 : Nat), handling_line 4],
       RunOutcome.running) ∧
    (∀ msg, (run_server osListenFail 8080 SERVER_SOCKET_QUEUE_SIZE_c addr0c 1).2
      ≠ RunOutcome.fatal msg) := by
  have h3 : run_server osListenFail 8080 SERVER_SOCKET_QUEUE_SIZE_c addr0c 1 =
      ([SERVER_LISTENING_ON_PORT_c ++ toString (8080 : Nat), handling_line 4],
       RunOutcome.running) := by
    rfl
  refine ⟨rfl, rfl, h3, ?_⟩
  intro msg h
  rw [h3] at h
  exact RunOutcome.noConfusion h

/-- Claim C5: console output order for a run with an explicit port
argument: the user-selected line, then the listening line with the resolved
port, then one handling line per accepted connection; on a fatal error at
any stage — socket creation, setsockopt, bind, getsockname, or accept —
the lines produced so far are followed by that error's message and the
process exits (-1). -/
theorem c5_output_order (os : OSModel) (addr0 : sockaddr_in) (fuel : Nat) (s : String) :
    (os.socket_ret = -1 →
      server_main [s] os addr0 fuel =
        ((USER_SELECTED_FOLLOWING_PORT_c ++ toString (atoi s)) ::
           [ENCOUNTERED_AN_ERROR_OPENING_STREAM_SOCKET_c],
         some (-1))) ∧
    (os.socket_ret ≠ -1 → os.setsockopt_ret = -1 →
      server_main [s] os addr0 fuel =
        ((USER_SELECTED_FOLLOWING_PORT_c ++ toString (atoi s)) ::
           [ENCOUNTERED_ERROR_SETTING_SOCKET_OPTIONS_c],
         some (-1))) ∧
    (os.socket_ret ≠ -1 → os.setsockopt_ret ≠ -1 → os.bind_ret = -1 →
      server_main [s] os addr0 fuel =
        ((USER_SELECTED_FOLLOWING_PORT_c ++ toString (atoi s)) ::
           [ENCOUNTERED_ERROR_BINDING_STREAM_SOCKET_c],
         some (-1))) ∧
    (os.socket_ret ≠ -1 → os.setsockopt_ret ≠ -1 → os.bind_ret ≠ -1 →
      os.getsockname_ret = -1 →
      server_main [s] os addr0 fuel =
        ((USER_SELECTED_FOLLOWING_PORT_c ++ toString (atoi s)) ::
           [ENCOUNTERED_ERROR_FETCHING_SOCKET_PORT_c],
         some (-1))) ∧
    (os.socket_ret ≠ -1 → os.setsockopt_ret ≠ -1 → os.bind_ret ≠ -1 →
      os.getsockname_ret ≠ -1 → (∀ k, k < fuel → os.accept_ret k ≠ -1) →
      server_main [s] os addr0 fuel =
        ((USER_SELECTED_FOLLOWING_PORT_c ++ toString (atoi s)) ::
           ((SERVER_LISTENING_ON_PORT_c ++ toString (ntohs os.getsockname_addr.sin_port)) ::
             (List.range fuel).map (fun k => handling_line (os.accept_ret k))),
         none)) ∧
    (∀ j, os.socket_ret ≠ -1 → os.setsockopt_ret ≠ -1 → os.bind_ret ≠ -1 →
      os.getsockname_ret ≠ -1 →
      j < fuel → (∀ k, k < j → os.accept_ret k ≠ -1) → os.accept_ret j = -1 →
      server_main [s] os addr0 fuel =
        ((USER_SELECTED_FOLLOWING_PORT_c ++ toString (atoi s)) ::
           (((SERVER_LISTENING_ON_PORT_c ++ toString (ntohs os.getsockname_addr.sin_port)) ::
              (List.range j).map (fun k => handling_line (os.accept_ret k)))
            ++ [ENCOUNTERED_ERROR_ACCEPTING_NEW_CONNECTION_c]),
         some (-1))) := by
  refine ⟨?_, ?_, ?_, ?_, ?_, ?_⟩
  · intro hsock
    have hrun : run_server os (mainPort [s]) SERVER_SOCKET_QUEUE_SIZE_c addr0 fuel
        = ([], RunOutcome.fatal ENCOUNTERED_AN_ERROR_OPENING_STREAM_SOCKET_c) := by
      simp [run_server, hsock]
    exact server_main_catch [s] os addr0 fuel (by simp) _ _ hrun
  · intro hs ho
    have hrun : run_server os (mainPort [s]) SERVER_SOCKET_QUEUE_SIZE_c addr0 fuel
        = ([], RunOutcome.fatal ENCOUNTERED_ERROR_SETTING_SOCKET_OPTIONS_c) := by
      simp [run_server, hs, ho]
    exact server_main_catch [s] os addr0 fuel (by simp) _ _ hrun
  · intro hs ho hb
    have hrun : run_server os (mainPort [s]) SERVER_SOCKET_QUEUE_SIZE_c addr0 fuel
        = ([], RunOutcome.fatal ENCOUNTERED_ERROR_BINDING_STREAM_SOCKET_c) := by
      simp [run_server, hs, ho, hb]
    exact server_main_catch [s] os addr0 fuel (by simp) _ _ hrun
  · intro hs ho hb hg
    have hrun : run_server os (mainPort [s]) SERVER_SOCKET_QUEUE_SIZE_c addr0 fuel
        = ([], RunOutcome.fatal ENCOUNTERED_ERROR_FETCHING_SOCKET_PORT_c) := by
      simp [run_server, get_port_number, hs, ho, hb, hg]
    exact server_main_catch [s] os addr0 fuel (by simp) _ _ hrun
  · intro hs ho hb hg hacc
    have hloop0 : accept_loop os 0 fuel
        = ((List.range fuel).map (fun k => handling_line (os.accept_ret k)),
           RunOutcome.running) := by
      have h := accept_loop_all_ok os fuel 0 (fun k hk => by simpa using hacc k hk)
      simpa using h
    have hrun2 : run_server os (mainPort [s]) SERVER_SOCKET_QUEUE_SIZE_c addr0 fuel
        = ((SERVER_LISTENING_ON_PORT_c ++ toString (ntohs os.getsockname_addr.sin_port))
             :: (List.range fuel).map (fun k => handling_line (os.accept_ret k)),
           RunOutcome.running) := by
      rw [run_server_ok_eq os (mainPort [s]) SERVER_SOCKET_QUEUE_SIZE_c addr0 fuel hs ho hb hg,
        hloop0]
    exact server_main_running [s] os addr0 fuel (by simp) _ hrun2
  · intro j hs ho hb hg hj hpre hacc
    have hloop0 : accept_loop os 0 fuel
        = ((List.range j).map (fun k => handling_line (os.accept_ret k)),
           RunOutcome.fatal ENCOUNTERED_ERROR_ACCEPTING_NEW_CONNECTION_c) := by
      have h := accept_loop_first_fail os j 0 fuel hj
        (fun k hk => by simpa using hpre k hk) (by simpa using hacc)
      simpa using h
    have hrun2 : run_server os (mainPort [s]) SERVER_SOCKET_QUEUE_SIZE_c addr0 fuel
        = ((SERVER_LISTENING_ON_PORT_c ++ toString (ntohs os.getsockname_addr.sin_port))
             :: (List.range j).map (fun k => handling_line (os.accept_ret k)),
           RunOutcome.fatal ENCOUNTERED_ERROR_ACCEPTING_NEW_CONNECTION_c) := by
      rw [run_server_ok_eq os (mainPort [s]) SERVER_SOCKET_QUEUE_SIZE_c addr0 fuel hs ho hb hg,
        hloop0]
    exact server_main_catch [s] os addr0 fuel (by simp) _ _ hrun2

/-- Claim C5 witness: port argument 8080, two accepted connections. -/
theorem c5_output_order_witness :
    server_main ["8080"] osOk addr0c 2 =
      ((USER_SELECTED_FOLLOWING_PORT_c ++ toString (atoi "8080")) ::
         ((SERVER_LISTENING_ON_PORT_c ++ toString (ntohs osOk.getsockname_addr.sin_port)) ::
           (List.range 2).map (fun k => handling_line (osOk.accept_ret k))),
       none) :=
  (c5_output_order osOk addr0c 2 "8080").2.2.2.2.1
    (by decide) (by decide) (by decide) (by decide)
    (fun k hk => by show (4 : Int) ≠ -1; decide)

/-- The leading-digit value of a list whose head is not a digit is 0. -/
theorem digitsVal_zero_of_head_not_digit (t : List Char)
    (h : ∀ c cs, t = c :: cs → c.isDigit = false) : digitsVal t 0 = 0 := by
  cases t with
  | nil => rfl
  | cons c cs => simp [digitsVal, h c cs rfl]

/-- Claim C6: a malformed (non-numeric) single port argument parses to 0
under `atoi`, so the selected-port line shows 0 and the run proceeds
exactly as the OS-assigned-port (no-argument) case: identical output after
the first line and identical exit status, with no usage error. -/
theorem c6_malformed_port_parses_to_zero (s : String) (os : OSModel) (addr0 : sockaddr_in)
    (fuel : Nat) (h : nonNumericPortArg s = true) :
    atoi s = 0 ∧
    server_main [s] os addr0 fuel =
      ((USER_SELECTED_FOLLOWING_PORT_c ++ "0")
         :: (server_main [] os addr0 fuel).1.drop 1,
       (server_main [] os addr0 fuel).2) := by
  have hatoi : atoi s = 0 := by
    unfold nonNumericPortArg at h
    unfold atoi
    cases ht : s.data.dropWhile isCSpace with
    | nil => rfl
    | cons c cs =>
      rw [ht] at h
      simp only [dropSign] at h
      by_cases hminus : c = '-'
      · rw [if_pos hminus] at h
        have hz : digitsVal cs 0 = 0 := by
          apply digitsVal_zero_of_head_not_digit
          intro d ds hds
          rw [hds] at h
          simpa using h
        simp [hminus, hz]
      · rw [if_neg hminus] at h
        by_cases hplus : c = '+'
        · rw [if_pos hplus] at h
          have hz : digitsVal cs 0 = 0 := by
            apply digitsVal_zero_of_head_not_digit
            intro d ds hds
            rw [hds] at h
            simpa using h
          simp [hminus, hplus, hz]
        · rw [if_neg hplus] at h
          have hcd : c.isDigit = false := by simpa using h
          have hz : digitsVal (c :: cs) 0 = 0 := by
            apply digitsVal_zero_of_head_not_digit
            intro d ds hds
            rw [List.cons.injEq] at hds
            rw [← hds.1]
            exact hcd
          simp [hminus, hplus, hz]
  refine ⟨hatoi, ?_⟩
  have hline : mainFirstLine [s] = USER_SELECTED_FOLLOWING_PORT_c ++ "0" := by
    rw [show mainFirstLine [s] = USER_SELECTED_FOLLOWING_PORT_c ++ toString (atoi s) from rfl,
      hatoi]
    rfl
  rw [← hline]
  simp only [server_main, mainPort, hatoi]
  cases hr : (run_server os 0 SERVER_SOCKET_QUEUE_SIZE_c addr0 fuel).2 <;> simp [hr]

/-- Claim C6 witness: the non-numeric argument "abc". -/
theorem c6_malformed_port_parses_to_zero_witness :
    atoi "abc" = 0 ∧
    server_main ["abc"] osOk addr0c 1 =
      ((USER_SELECTED_FOLLOWING_PORT_c ++ "0")
         :: (server_main [] osOk addr0c 1).1.drop 1,
       (server_main [] osOk addr0c 1).2) :=
  c6_malformed_port_parses_to_zero "abc" osOk addr0c 1 (by rfl)

/-- Claim C7: `run_server` never returns normally: its outcome is never
`RunOutcome.done` for any oracle and any fuel, and when no fatal error
occurs it is still in the accept loop at every fuel bound, having accepted
one connection per iteration (the output holds the listening line plus one
handling line per iteration), so the graceful exit code 0 is unreachable
and the only exits are thrown Server_Error outcomes. -/
theorem c7_run_server_never_returns (os : OSModel) (p q : Int) (addr0 : sockaddr_in)
    (fuel : Nat) :
    (run_server os p q addr0 fuel).2 ≠ RunOutcome.done ∧
    ((os.socket_ret ≠ -1 ∧ os.setsockopt_ret ≠ -1 ∧ os.bind_ret ≠ -1 ∧
        os.getsockname_ret ≠ -1 ∧ (∀ k, k < fuel → os.accept_ret k ≠ -1)) →
      (run_server os p q addr0 fuel).2 = RunOutcome.running ∧
      (run_server os p q addr0 fuel).1.length = fuel + 1) := by
  constructor
  · by_cases hs : os.socket_ret = -1
    · simp [run_server, hs]
    by_cases ho : os.setsockopt_ret = -1
    · simp [run_server, hs, ho]
    by_cases hb : os.bind_ret = -1
    · simp [run_server, hs, ho, hb]
    by_cases hg : os.getsockname_ret = -1
    · simp [run_server, get_port_number, hs, ho, hb, hg]
    · simpa [run_server, get_port_number, hs, ho, hb, hg] using accept_loop_ne_done os fuel 0
  · rintro ⟨hs, ho, hb, hg, hacc⟩
    have hloop0 : accept_loop os 0 fuel
        = ((List.range fuel).map (fun k => handling_line (os.accept_ret k)),
           RunOutcome.running) := by
      have h := accept_loop_all_ok os fuel 0 (fun k hk => by simpa using hacc k hk)
      simpa using h
    rw [run_server_ok_eq os p q addr0 fuel hs ho hb hg, hloop0]
    constructor
    · rfl
    · simp

/-- Claim C7 witness: three successful loop iterations on the all-success
oracle. -/
theorem c7_run_server_never_returns_witness :
    (run_server osOk 8080 30 addr0c 3).2 = RunOutcome.running ∧
    (run_server osOk 8080 30 addr0c 3).1.length = 3 + 1 :=
  (c7_run_server_never_returns osOk 8080 30 addr0c 3).2
    ⟨by decide, by decide, by decide, by decide,
     fun k hk => by show (4 : Int) ≠ -1; decide⟩
